import Mathlib

/-!
Shallow embedding of the heap-structure reconstruction engine of
`liballocate` (ptmalloc2/glibc free-list inspection), together with
theorems settling the specification claims about it.

Sources embedded (translated from the Python sources):
* `liballocate/allocators/ptmalloc2/tcache.py` — `Tcache.protect_ptr`,
  `Tcache.reveal_ptr`, `Tcache._csize2tidx`, `Tcache.__getitem__`,
  `Tcache.__setitem__`.
* `liballocate/allocators/ptmalloc2/tcache_entry.py` — `TcacheEntry`
  (a `@dataclass(frozen=True)`).
* `liballocate/allocators/ptmalloc2/fastbin.py` — `Fastbin.__init__`,
  `Fastbin._fastbin_index`, `Fastbin.__getitem__`.
* `liballocate/allocators/ptmalloc2/fastbin_entry.py` — `FastbinEntry`
  (a mutable `@dataclass`).
* `liballocate/allocators/ptmalloc2/heap_chunk.py` — `Ptmalloc2Chunk`.
* `liballocate/allocators/ptmalloc2/ptmalloc2_allocator.py` —
  `Ptmalloc2Allocator.protect_ptr` / `reveal_ptr`.
* `liballocate/clibs/clib.py` — the architecture `match` in `Clib.__init__`.
* `liballocate/utils/version_str.py` — `VersionStr` comparison operators.

Conventions of the embedding:
* Machine integers are `Nat` (Python ints are unbounded; the code never
  relies on overflow), indices computed with Python `-` and `//` that may
  go negative are `Int` with `Int.fdiv` (Python floor division).
* The debugger memory interface is embedded per address: a read of any
  length at address `a` succeeds iff `readable a` (values are given by
  value functions); a failing read raises, modelled as an error value.
* Python exceptions are the `PyErr` error component of `Except`;
  unbounded `while` loops take a fuel argument and return `none` when the
  fuel runs out (the Python loop would still be running), so `none` marks
  divergence, never a result.
-/

/-- Python exception kinds raised (or named by the specification) in the
embedded code. `invalidSizeClass` is the name the specification gives to
the fastbin input-validation failure; it is included so that its absence
from the behaviour of the code is statable. -/
inductive PyErr where
  | valueError
  | memoryFault
  | frozenInstanceError
  | typeError
  | invalidSizeClass
deriving DecidableEq, Repr

deriving instance DecidableEq for Except

/-- `Tcache.protect_ptr` (tcache.py line 96): `(pos >> 12) ^ ptr`. -/
def protect_ptr (pos ptr : Nat) : Nat :=
  (pos >>> 12) ^^^ ptr

/-- `Tcache.reveal_ptr` (tcache.py line 105): alias for `protect_ptr`. -/
def reveal_ptr (pos ptr : Nat) : Nat :=
  protect_ptr pos ptr

/-- `Ptmalloc2Allocator.protect_ptr` (ptmalloc2_allocator.py line 116),
textually identical to the `Tcache` version. -/
def Ptmalloc2Allocator.protect_ptr (pos ptr : Nat) : Nat :=
  (pos >>> 12) ^^^ ptr

/-- `Ptmalloc2Allocator.reveal_ptr` (ptmalloc2_allocator.py line 125). -/
def Ptmalloc2Allocator.reveal_ptr (pos ptr : Nat) : Nat :=
  Ptmalloc2Allocator.protect_ptr pos ptr

/-- `Fastbin._fastbin_index` (fastbin.py line 53):
`(size >> (4 if SIZE_SZ == 8 else 3)) - 2`. The result is `Int` because
Python subtraction can go below zero (e.g. `size = 0x10` on 64-bit). -/
def fastbin_index (sizeSz : Nat) (size : Nat) : Int :=
  ((size >>> (if sizeSz = 8 then 4 else 3) : Nat) : Int) - 2

/-- `Tcache._csize2tidx` (tcache.py line 118):
`(size - 0x10 + 0x10 - 1) // 0x10` with Python floor division. -/
def csize2tidx (size : Int) : Int :=
  Int.fdiv (size - 0x10 + 0x10 - 1) 0x10

/-- The architecture `match` of `Fastbin.__init__` (fastbin.py lines
29-42): `amd64`/`aarch64` give `INTERNAL_SIZE_T = 8`, `i386` gives 4, and
every other architecture falls through to the default case, which sets
`INTERNAL_SIZE_T = 4` and emits a log line ("Unsupported architecture:
... INTERNAL_SIZE_T will default to 32-bit."). The `Bool` component
records whether that log line was emitted; no exception is raised. -/
def fastbinInternalSizeT (arch : String) : Nat × Bool :=
  if arch = "amd64" ∨ arch = "aarch64" then (8, false)
  else if arch = "i386" then (4, false)
  else (4, true)

/-- The `e_machine` `match` of `Clib.__init__` (clib.py lines 49-59),
over the two little-endian machine bytes `elf_header[0x12:0x14]`.
the pattern 03 00 gives `i386` and 3e 00 gives `amd64`; the third case
in the source repeats the byte pattern 3e 00 for `aarch64`, which
first-match semantics make unreachable, and anything else raises
`ValueError("Unsupported architecture. ...")`. -/
def clibArchOf (b0 b1 : Nat) : Except PyErr String :=
  if b0 = 3 ∧ b1 = 0 then .ok "i386"
  else if b0 = 0x3e ∧ b1 = 0 then .ok "amd64"
  else if b0 = 0x3e ∧ b1 = 0 then .ok "aarch64"
  else .error .valueError

/-- `VersionStr.__lt__` (version_str.py lines 17-27): walk the zipped
numeric components; the first strictly smaller component answers `True`,
the first strictly larger answers `False`; if the zip is exhausted the
result is `False`. Versions are represented by their parsed numeric
component lists (the int of each dot-separated piece of the string). -/
def versionLtNums : List Nat → List Nat → Bool
  | a :: as, b :: bs =>
      if a < b then true
      else if b < a then false
      else versionLtNums as bs
  | _, _ => false

/-- `VersionStr.__gt__` (version_str.py lines 29-39), mirror image of
`__lt__`. -/
def versionGtNums : List Nat → List Nat → Bool
  | a :: as, b :: bs =>
      if b < a then true
      else if a < b then false
      else versionGtNums as bs
  | _, _ => false

/-- `VersionStr.__eq__` (version_str.py line 12) is `return self == other`,
which re-invokes `__eq__` on the same operands: every recursive step
reproduces the same call. With fuel, each step consumes one unit and
leaves the call unchanged, so the call never produces a value. -/
def versionEqFuel (v1 v2 : List Nat) : Nat → Option Bool
  | 0 => none
  | fuel + 1 => versionEqFuel v1 v2 fuel

/-- `VersionStr.__ne__` (version_str.py line 15) is `return self != other`,
the same unconditional self-call as `__eq__`. -/
def versionNeFuel (v1 v2 : List Nat) : Nat → Option Bool
  | 0 => none
  | fuel + 1 => versionNeFuel v1 v2 fuel

/-- `VersionStr.__le__` (version_str.py line 42):
`self < other or self == other` with Python short-circuit `or`: a `True`
strict comparison answers immediately, otherwise `__eq__` is evaluated. -/
def versionLeFuel (v1 v2 : List Nat) (fuel : Nat) : Option Bool :=
  if versionLtNums v1 v2 then some true else versionEqFuel v1 v2 fuel

/-- `VersionStr.__ge__` (version_str.py line 45):
`self > other or self == other`, short-circuit as in `__le__`. -/
def versionGeFuel (v1 v2 : List Nat) (fuel : Nat) : Option Bool :=
  if versionGtNums v1 v2 then some true else versionEqFuel v1 v2 fuel

/-- `TcacheEntry` (tcache_entry.py): fields `address`, `next`, `_key`.
The walker only ever constructs entries whose `next` field holds either a
plain address or `None` (the `curr_entry.next = entry` re-binding that
would store an entry object raises before assigning, see
`TcacheEntry.setattr`), so `next` is embedded as the optional address. -/
structure TcacheEntry where
  address : Nat
  next : Option Nat
  key : Option Nat
deriving DecidableEq, Repr

/-- A Python value assigned to a `TcacheEntry` attribute: an int, another
entry, or `None`. -/
inductive PyValue where
  | int (n : Nat)
  | entry (e : TcacheEntry)
  | none
deriving Repr

/-- Attribute assignment on `TcacheEntry` (tcache_entry.py line 11):
`@dataclass(frozen=True)` generates a `__setattr__` that unconditionally
raises `FrozenInstanceError` (Python dataclasses semantics), before the
field name or value is consulted; so every post-construction assignment
to `address`, `next` or `_key` errors. -/
def TcacheEntry.setattr (_self : TcacheEntry) (_fld : String) (_v : PyValue) :
    Except PyErr TcacheEntry :=
  .error .frozenInstanceError

/-- The state `Tcache.__getitem__` / `__setitem__` read and write:
the inflated `tcache_perthread_struct` (`counts` and `entries`, indexed
by the computed tcache index, with `entriesAddr i` the address of the
`entries[i]` slot used as the `PROTECT_PTR` position on `set`), the
debugger memory (`readable a` iff a read at address `a` succeeds,
`nextVal a` / `keyVal a` the `next` and `key` words of the
`tcache_entry` struct inflated at `a`; `next` is at offset 0, so its
field address — the `reveal_ptr` position — is `a` itself), and the
version gates `has_protect_ptr` / `has_tcache_key`. -/
structure TcacheState where
  counts : Int → Nat
  entries : Int → Nat
  entriesAddr : Int → Nat
  readable : Nat → Bool
  nextVal : Nat → Nat
  keyVal : Nat → Nat
  hasProtectPtr : Bool
  hasTcacheKey : Bool

/-- The `while curr_address is not None and counter < num_entries` loop of
`Tcache.__getitem__` (tcache.py lines 142-183). The fuel is
`num_entries - counter` (the counter increments once per iteration, so
fuel 0 is exactly `counter == num_entries`). Both loop exits fall off the
end of the Python function body, which has no `return` statement, hence
produce `None` (`.ok none`). Reading the entry struct at an unreadable
address raises out of the unguarded `entry_struct.next.value` access;
the one-byte probe of the next address is wrapped in `try/except` and
only downgrades the next pointer to `None`. -/
def tcacheGetLoop (s : TcacheState) :
    Option Nat → Option TcacheEntry → Nat → Except PyErr (Option TcacheEntry)
  | _, _, 0 => .ok none
  | none, _, _ + 1 => .ok none
  | some a, currEntry, fuel + 1 =>
    if s.readable a then
      let rawNext := s.nextVal a
      let plainNext := if s.hasProtectPtr then reveal_ptr a rawNext else rawNext
      let isNextValid := s.readable plainNext
      let key := if s.hasTcacheKey then some (s.keyVal a) else Option.none
      let nextAddress := if isNextValid then some plainNext else Option.none
      let entry : TcacheEntry := ⟨a, nextAddress, key⟩
      match currEntry with
      | some ce =>
        match ce.setattr "next" (.entry entry) with
        | .error e => .error e
        | .ok _ => tcacheGetLoop s nextAddress (some entry) fuel
      | Option.none => tcacheGetLoop s nextAddress (some entry) fuel
    else .error .memoryFault

/-- `Tcache.__getitem__` (tcache.py lines 120-183): reject
`size < 0x10` with `ValueError`, compute the tcache index, read the head
address and declared count from the perthread struct, and run the
unwinding loop. -/
def tcacheGetItem (s : TcacheState) (size : Int) : Except PyErr (Option TcacheEntry) :=
  if size < 0x10 then .error .valueError
  else
    let tcacheIndex := csize2tidx size
    let currAddress := s.entries tcacheIndex
    let numEntries := s.counts tcacheIndex
    tcacheGetLoop s (some currAddress) Option.none numEntries

/-- The counting loop of `Tcache.__setitem__` (tcache.py lines 201-231):
`while curr_address is not None`, following validated next pointers.
This loop has no counter bound, so it takes explicit fuel; `none` marks
the still-running loop. Reading the entry struct at an unreadable
address raises (`.error`); a failing one-byte probe of the next address
ends the walk with the accumulated count. -/
def tcacheSetLoop (s : TcacheState) :
    Option Nat → Nat → Nat → Option (Except PyErr Nat)
  | Option.none, count, _ => some (.ok count)
  | some _, _, 0 => none
  | some a, count, fuel + 1 =>
    if s.readable a then
      let rawNext := s.nextVal a
      let plainNext := if s.hasProtectPtr then reveal_ptr a rawNext else rawNext
      let nextAddress := if s.readable plainNext then some plainNext else Option.none
      tcacheSetLoop s nextAddress (count + 1) fuel
    else some (.error .memoryFault)

/-- `Tcache.__setitem__` (tcache.py lines 185-245): re-walk the chain
from `value` to count it, store `count if count > 0 else 1` into
`counts[tcache_index]`, and store the head (obfuscated against the
`entries[tcache_index]` slot address when `has_protect_ptr`) into
`entries[tcache_index]`. -/
def tcacheSetItem (s : TcacheState) (size : Int) (value : Nat) (fuel : Nat) :
    Option (Except PyErr TcacheState) :=
  let tcacheIndex := csize2tidx size
  match tcacheSetLoop s (some value) 0 fuel with
  | Option.none => none
  | some (.error e) => some (.error e)
  | some (.ok count) =>
    let newCount := if count > 0 then count else 1
    let encodedPtr :=
      if s.hasProtectPtr then protect_ptr (s.entriesAddr tcacheIndex) value else value
    some (.ok { s with
      counts := fun i => if i = tcacheIndex then newCount else s.counts i,
      entries := fun i => if i = tcacheIndex then encodedPtr else s.entries i })

/-- `FastbinEntry` (fastbin_entry.py): `address`, `next` (a forward link
to another entry or `None`), `next_value` (obfuscation-resolved next
address) and `raw_next` (next word as stored). The dataclass is mutable;
the walker assigns `prev.next = new_entry` to link each freshly created
entry to its predecessor — so only predecessors are ever re-bound, and
the entry the walk finally returns still has `next = None`. -/
inductive FastbinEntry where
  | mk (address : Nat) (next : Option FastbinEntry) (next_value : Nat) (raw_next : Nat)
deriving Repr

/-- Field accessor for `FastbinEntry.address`. -/
def FastbinEntry.address : FastbinEntry → Nat
  | .mk a _ _ _ => a

/-- Field accessor for `FastbinEntry.next`. -/
def FastbinEntry.next : FastbinEntry → Option FastbinEntry
  | .mk _ n _ _ => n

/-- Field accessor for `FastbinEntry.next_value`. -/
def FastbinEntry.next_value : FastbinEntry → Nat
  | .mk _ _ v _ => v

/-- Field accessor for `FastbinEntry.raw_next`. -/
def FastbinEntry.raw_next : FastbinEntry → Nat
  | .mk _ _ _ r => r

/-- The state `Fastbin.__getitem__` reads: `SIZE_SZ` from
`Fastbin.__init__`, the `main_arena.fastbinsY` head table (indexed by the
computed — possibly negative — fastbin index), debugger memory
(`readable a` iff a read at `a` succeeds, `wordVal a` the word stored at
`a`, i.e. the fastbin `fd` field), and the `has_protect_ptr` gate. -/
structure FastbinState where
  sizeSz : Nat
  fastbinsY : Int → Nat
  readable : Nat → Bool
  wordVal : Nat → Nat
  hasProtectPtr : Bool

/-- The `while valid_next` loop of `Fastbin.__getitem__` (fastbin.py
lines 85-109). Each iteration reads one word at the current address —
this read is unguarded, so a fault there propagates (`.error`), including
on the very first iteration when the bin head itself is unmapped. The
subsequent one-byte probe of the resolved next address is guarded by
`try/except MemoryError` and merely clears `valid_next`. On exit the
function returns `curr_entry`, which is the entry created by the *last*
iteration (its `next` field was never re-bound, hence `none`); the loop
itself is unbounded (a cyclic chain never exits), so fuel is explicit
and `none` marks the still-running loop. -/
def fastbinWalkLoop (s : FastbinState) :
    Nat → Option FastbinEntry → Nat → Option (Except PyErr (Option FastbinEntry))
  | _, _, 0 => none
  | addr, _currEntry, fuel + 1 =>
    if s.readable addr then
      let rawNext := s.wordVal addr
      let nextValue := if s.hasProtectPtr then reveal_ptr addr rawNext else rawNext
      let newEntry : FastbinEntry := .mk addr Option.none nextValue rawNext
      if s.readable nextValue then
        fastbinWalkLoop s nextValue (some newEntry) fuel
      else
        some (.ok (some newEntry))
    else some (.error .memoryFault)

/-- `Fastbin.__getitem__` (fastbin.py lines 66-109): compute the fastbin
index from the size — with no range validation of any kind — read the
bin head at that raw index, and run the walking loop from it. -/
def fastbinGetItem (s : FastbinState) (size : Nat) (fuel : Nat) :
    Option (Except PyErr (Option FastbinEntry)) :=
  let index := fastbin_index s.sizeSz size
  let head := s.fastbinsY index
  fastbinWalkLoop s head Option.none fuel

/-- Byte-level memory for the chunk codec: each mapped address holds one
byte, unmapped addresses read as `none` (a read touching one raises). -/
def ByteMem : Type := Nat → Option Nat

/-- `debugger.memory[addr, len]`: read `len` consecutive bytes; the read
succeeds only if every byte is mapped. -/
def readBytes (m : ByteMem) (addr len : Nat) : Option (List Nat) :=
  (List.range len).mapM fun i => m (addr + i)

/-- `int.from_bytes(bs, byteorder="little")`. -/
def fromBytesLE (bs : List Nat) : Nat :=
  bs.foldr (fun b acc => b + 0x100 * acc) 0

/-- `v.to_bytes(len, "little")`. -/
def toBytesLE (v len : Nat) : List Nat :=
  (List.range len).map fun i => v / 0x100 ^ i % 0x100

/-- `debugger.memory[addr, len] = bs`: overwrite `bs.length` bytes
starting at `addr`. -/
def writeBytes (m : ByteMem) (addr : Nat) (bs : List Nat) : ByteMem :=
  fun a => if addr ≤ a ∧ a - addr < bs.length then some (bs.getD (a - addr) 0) else m a

/-- `Ptmalloc2Chunk` (heap_chunk.py): the fields extracted by
`__init__`. Note that `_is_allocated_arena` and `_is_mmapped` are both
decoded from the same bit 0x2 of the size word. -/
structure Ptmalloc2Chunk where
  address : Nat
  prev_size : Nat
  size : Nat
  is_allocated_arena : Bool
  is_mmapped : Bool
  is_prev_inuse : Bool
  content : List Nat
deriving DecidableEq, Repr

/-- `Ptmalloc2Chunk.__init__` (heap_chunk.py lines 13-39): read the
16-byte header at `address - 0x10` (a fault there is caught and
re-raised as `ValueError`), split it into `prev_size` and
`size_plus_flags`, mask the size with `0xfffffffffffffff8`, decode bit
0x2 into both `_is_allocated_arena` and `_is_mmapped` and bit 0x1 into
`_is_prev_inuse`, then read `size - 0x10` bytes of content at `address`
(this second read is unguarded: a fault propagates). -/
def chunkInit (m : ByteMem) (address : Nat) : Except PyErr Ptmalloc2Chunk :=
  match readBytes m (address - 0x10) 0x10 with
  | Option.none => .error .valueError
  | some md =>
    let prevSize := fromBytesLE (md.take 8)
    let sizePlusFlags := fromBytesLE ((md.drop 8).take 8)
    let size := sizePlusFlags &&& 0xfffffffffffffff8
    let isAllocatedArena := sizePlusFlags &&& 0x2 = 0x2
    let isMmapped := sizePlusFlags &&& 0x2 = 0x2
    let isPrevInuse := sizePlusFlags &&& 0x1 = 0x1
    match readBytes m address (size - 0x10) with
    | Option.none => .error .memoryFault
    | some content =>
      .ok ⟨address, prevSize, size, isAllocatedArena, isMmapped, isPrevInuse, content⟩

/-- `Ptmalloc2Chunk._compute_size_plus_flags` (heap_chunk.py lines
123-132): start from `_size`, OR in 0x2 for `_is_allocated_arena`, 0x2
again for `_is_mmapped`, and 0x1 for `_is_prev_inuse`. -/
def computeSizePlusFlags (c : Ptmalloc2Chunk) : Nat :=
  let s1 := if c.is_allocated_arena then c.size ||| 0x2 else c.size
  let s2 := if c.is_mmapped then s1 ||| 0x2 else s1
  if c.is_prev_inuse then s2 ||| 0x1 else s2

/-- The `size` property setter (heap_chunk.py lines 49-52 plus
`_update_size_in_memory`, lines 105-108): update `_size`, recompute the
packed word and write its 8 little-endian bytes at `address - 0x8`.
Returns the updated chunk object and the updated memory. -/
def chunkSetSize (c : Ptmalloc2Chunk) (m : ByteMem) (v : Nat) :
    Ptmalloc2Chunk × ByteMem :=
  let c1 := { c with size := v }
  (c1, writeBytes m (c1.address - 0x8) (toBytesLE (computeSizePlusFlags c1) 8))

/-- Concrete tcache state: the bin of size class 0x20 (tcache index 1)
declares count 1 and head 0x1000; the entry at 0x1000 is mapped and its
stored next word (0xdead) is unmapped. Safe linking and the tcache key
are off (glibc before 2.29). -/
def tcacheOneState : TcacheState where
  counts := fun i => if i = 1 then 1 else 0
  entries := fun i => if i = 1 then 0x1000 else 0
  entriesAddr := fun _ => 0x500
  readable := fun a => a == 0x1000
  nextVal := fun _ => 0xdead
  keyVal := fun _ => 0
  hasProtectPtr := false
  hasTcacheKey := false

/-- Concrete tcache state: the bin of size class 0x20 declares count 2
and head 0x1000; the entry at 0x1000 links to 0x1010, whose stored next
word (0xdead) is unmapped. -/
def tcacheTwoState : TcacheState where
  counts := fun i => if i = 1 then 2 else 0
  entries := fun i => if i = 1 then 0x1000 else 0
  entriesAddr := fun _ => 0x500
  readable := fun a => a == 0x1000 || a == 0x1010
  nextVal := fun a => if a = 0x1000 then 0x1010 else 0xdead
  keyVal := fun _ => 0
  hasProtectPtr := false
  hasTcacheKey := false

/-- Synthetic memory image holding a linear chain of `n` tcache entries
at 0x1000, 0x1010, ..., 0x1000 + 0x10*(n-1): each entry stores
`address + 0x10` as its next word, so the next link of the last entry
points one stride past the mapped region and the probe there faults.
Every declared count is 0 (the set path recomputes counts itself). -/
def chainState (n : Nat) : TcacheState where
  counts := fun _ => 0
  entries := fun _ => 0x1000
  entriesAddr := fun _ => 0x500
  readable := fun a =>
    decide (0x1000 ≤ a ∧ a < 0x1000 + 0x10 * n ∧ (a - 0x1000) % 0x10 = 0)
  nextVal := fun a => a + 0x10
  keyVal := fun _ => 0
  hasProtectPtr := false
  hasTcacheKey := false

/-- Fastbin state over a fully unmapped memory: every bin head is 0 and
no address is readable (an empty synthetic image, N = 0). -/
def fbEmptyState : FastbinState where
  sizeSz := 8
  fastbinsY := fun _ => 0
  readable := fun _ => false
  wordVal := fun _ => 0
  hasProtectPtr := false

/-- Fastbin state with a synthetic chain of 5 entries for size class
0x20 (index 0): entries at 0x2000, 0x2010, ..., 0x2040, each storing
`address + 0x10` as its next word; the next word of the last entry,
0x2050, is unmapped. -/
def fbChain5State : FastbinState where
  sizeSz := 8
  fastbinsY := fun i => if i = 0 then 0x2000 else 0
  readable := fun a =>
    decide (0x2000 ≤ a ∧ a < 0x2000 + 0x10 * 5 ∧ (a - 0x2000) % 0x10 = 0)
  wordVal := fun a => a + 0x10
  hasProtectPtr := false

/-- The chunk of the round-trip claim: content address 0x5000, size
0x90, `prev_inuse` set, `mmapped` (and the bit-sharing
`allocated_arena`) clear, with zeroed content. -/
def chunk0 : Ptmalloc2Chunk :=
  ⟨0x5000, 0, 0x90, false, false, true, List.replicate 0x80 0⟩

/-- Memory image holding exactly the encoding of `chunk0` at 0x5000: the
mapped window 0x4ff0 ≤ a < 0x5090 is zero except for the packed
size-plus-flags word 0x91 = 0x90 ||| 0x1 at 0x4ff8 (little endian, its
upper bytes zero). The window extends past the content of `chunk0` so a
grown size can be re-read. -/
def c7mem : ByteMem := fun a =>
  if 0x4ff0 ≤ a ∧ a < 0x5090 then some (if a = 0x4ff8 then 0x91 else 0) else none

/-- Characterisation of the mapped addresses of `chainState n`. -/
lemma chainState_readable_iff (n a : Nat) :
    (chainState n).readable a = true ↔
      (0x1000 ≤ a ∧ a < 0x1000 + 0x10 * n ∧ (a - 0x1000) % 0x10 = 0) := by
  simp [chainState]

/-- One unfolding step of the counting loop of `Tcache.__setitem__` over
`chainState n`: safe linking is off and every stored next word is the
address plus the stride. -/
lemma tcacheSetLoop_chain_step (n a c f : Nat) :
    tcacheSetLoop (chainState n) (some a) c (f + 1) =
      if (chainState n).readable a = true then
        tcacheSetLoop (chainState n)
          (if (chainState n).readable (a + 0x10) = true then some (a + 0x10) else none)
          (c + 1) f
      else some (.error .memoryFault) := rfl

/-- Walking `chainState n` from its i-th entry counts the `n - i`
remaining entries: the successor of the last entry is unmapped, so the
probe there ends the walk. -/
lemma tcacheSetLoop_chainState (n : Nat) :
    ∀ fuel i c, i < n → n - i ≤ fuel →
      tcacheSetLoop (chainState n) (some (0x1000 + 0x10 * i)) c fuel =
        some (.ok (c + (n - i))) := by
  intro fuel
  induction fuel with
  | zero => intro i c hi hf; omega
  | succ f ih =>
    intro i c hi hf
    have hread : (chainState n).readable (0x1000 + 0x10 * i) = true :=
      (chainState_readable_iff n _).mpr (by omega)
    rw [tcacheSetLoop_chain_step, if_pos hread]
    by_cases h2 : i + 1 < n
    · have hread2 : (chainState n).readable (0x1000 + 0x10 * i + 0x10) = true :=
        (chainState_readable_iff n _).mpr (by omega)
      rw [if_pos hread2, show 0x1000 + 0x10 * i + 0x10 = 0x1000 + 0x10 * (i + 1) from by ring,
        ih (i + 1) (c + 1) h2 (by omega)]
      congr 2
      omega
    · have hread2 : ¬ (chainState n).readable (0x1000 + 0x10 * i + 0x10) = true := by
        rw [chainState_readable_iff]
        omega
      rw [if_neg hread2]
      have hend : tcacheSetLoop (chainState n) none (c + 1) f = some (.ok (c + 1)) := by
        cases f <;> rfl
      rw [hend]
      congr 2
      omega

/-- The fastbin walking loop can only fail with `memoryFault` (or run
out of fuel): no branch of it produces `invalidSizeClass`. -/
lemma fastbinWalkLoop_ne_invalid (s : FastbinState) :
    ∀ fuel addr ce, fastbinWalkLoop s addr ce fuel ≠ some (.error .invalidSizeClass) := by
  intro fuel
  induction fuel with
  | zero => intro addr ce h; simp [fastbinWalkLoop] at h
  | succ f ih =>
    intro addr ce h
    rw [fastbinWalkLoop] at h
    split at h
    · dsimp only at h
      split at h <;> split at h <;>
        first
        | exact ih _ _ h
        | simp at h
    · simp at h

/-- With any fuel, the self-recursive `VersionStr.__eq__` never produces
a value. -/
lemma versionEqFuel_eq_none (v1 v2 : List Nat) : ∀ fuel, versionEqFuel v1 v2 fuel = none := by
  intro fuel
  induction fuel with
  | zero => rfl
  | succ f ih => rw [versionEqFuel]; exact ih

/-- With any fuel, the self-recursive `VersionStr.__ne__` never produces
a value. -/
lemma versionNeFuel_eq_none (v1 v2 : List Nat) : ∀ fuel, versionNeFuel v1 v2 fuel = none := by
  intro fuel
  induction fuel with
  | zero => rfl
  | succ f ih => rw [versionNeFuel]; exact ih

/-- The strict `__gt__` comparison is irreflexive on component lists. -/
lemma versionGtNums_self (v : List Nat) : versionGtNums v v = false := by
  induction v with
  | nil => rfl
  | cons a as ih => simp [versionGtNums, ih]

/-- The strict `__lt__` comparison is irreflexive on component lists. -/
lemma versionLtNums_self (v : List Nat) : versionLtNums v v = false := by
  induction v with
  | nil => rfl
  | cons a as ih => simp [versionLtNums, ih]

/-- Claim C1 (code bug, evaluation at the failing input): on a bin of
size class 0x20 with declared count 1 and one valid entry at 0x1000
(`tcacheOneState`), `Tcache.__getitem__` returns `None`, and in
particular not the head entry the claim (and the docstring of the
function) promise: the function body has no `return` statement, so both
loop exits fall off the end of the function. -/
theorem c1_tcache_get_never_returns_entry :
    tcacheGetItem tcacheOneState 0x20 = .ok none ∧
    ∀ e : TcacheEntry, tcacheGetItem tcacheOneState 0x20 ≠ .ok (some e) := by
  refine ⟨by decide, fun e h => ?_⟩
  rw [show tcacheGetItem tcacheOneState 0x20 = Except.ok none from by decide] at h
  simp at h

/-- Claim C1 witness: the theorem instantiated at the head entry the
claim expects for `tcacheOneState`. -/
theorem c1_tcache_get_never_returns_entry_witness :
    tcacheGetItem tcacheOneState 0x20 ≠ .ok (some ⟨0x1000, Option.none, Option.none⟩) :=
  c1_tcache_get_never_returns_entry.2 ⟨0x1000, Option.none, Option.none⟩

/-- Claim C2 (code bug, evaluation at the failing inputs): on the empty
synthetic image (N = 0, `fbEmptyState`) `Fastbin.__getitem__` does not
return absent — the unguarded word read at the bin head (address 0)
propagates a memory fault; and on the 5-entry synthetic chain
(`fbChain5State`, head 0x2000) it returns the *last* entry of the chain
(address 0x2040, `next = None`), not the head entry at 0x2000, because
the function returns `curr_entry`, which the loop leaves pointing at the
most recently created entry. -/
theorem c2_fastbin_walk_faults_and_returns_tail :
    fastbinGetItem fbEmptyState 0x20 10 = some (.error .memoryFault) ∧
    fastbinGetItem fbChain5State 0x20 10 =
      some (.ok (some (.mk 0x2040 Option.none 0x2050 0x2050))) ∧
    fbChain5State.fastbinsY (fastbin_index fbChain5State.sizeSz 0x20) = 0x2000 :=
  ⟨rfl, rfl, by decide⟩

/-- Claim C3 counterexample: setting the head of a synthetic chain of 10
linked entries stores a count of 10 — not the `tcache_fill_count = 7`
ceiling the claim states; `Tcache.__setitem__` has no upper clamp. -/
theorem c3_set_count_of_ten_chain_is_ten :
    (tcacheSetItem (chainState 10) 0x20 0x1000 20).map
      (Except.map fun t => t.counts 1) = some (.ok 10) ∧
    (tcacheSetItem (chainState 10) 0x20 0x1000 20).map
      (Except.map fun t => t.counts 1) ≠ some (.ok 7) :=
  ⟨by decide, by decide⟩

/-- Claim C3 as amended: after `Tcache.__setitem__` on a chain of `n ≥ 1`
linked entries, the stored count equals the full re-walked chain length
`n`, clamped below at 1 only (`count if count > 0 else 1`) — there is no
upper clamp at `tcache_fill_count = 7`. -/
theorem c3_set_count_lower_clamp_only (n fuel : Nat) (h1 : 0 < n) (h2 : n ≤ fuel) :
    ∃ s2, tcacheSetItem (chainState n) 0x20 0x1000 fuel = some (.ok s2) ∧
      s2.counts (csize2tidx 0x20) = n := by
  have hloop : tcacheSetLoop (chainState n) (some 0x1000) 0 fuel = some (.ok n) := by
    have hstep := tcacheSetLoop_chainState n fuel 0 0 h1 (by omega)
    simpa using hstep
  unfold tcacheSetItem
  rw [hloop]
  refine ⟨_, rfl, ?_⟩
  simp [h1]

/-- Claim C3 witness: the amended statement at the 10-entry chain, where
the stored count is 10. -/
theorem c3_set_count_lower_clamp_only_witness :
    ∃ s2, tcacheSetItem (chainState 10) 0x20 0x1000 10 = some (.ok s2) ∧
      s2.counts (csize2tidx 0x20) = 10 :=
  c3_set_count_lower_clamp_only 10 10 (by decide) (by decide)

/-- Claim C4: the safe-linking transform is an involution — for all
naturals `pos` and `ptr`, `reveal_ptr pos (protect_ptr pos ptr) = ptr`,
for both the `Tcache` and the `Ptmalloc2Allocator` copies of the
functions, each computing `(pos >> 12) XOR ptr`. -/
theorem c4_safe_linking_involution (pos ptr : Nat) :
    reveal_ptr pos (protect_ptr pos ptr) = ptr ∧
    Ptmalloc2Allocator.reveal_ptr pos (Ptmalloc2Allocator.protect_ptr pos ptr) = ptr := by
  constructor <;>
    simp [reveal_ptr, protect_ptr, Ptmalloc2Allocator.reveal_ptr,
      Ptmalloc2Allocator.protect_ptr, Nat.xor_cancel_left]

/-- Claim C4 witness: the involution at a concrete position and pointer. -/
theorem c4_safe_linking_involution_witness :
    reveal_ptr 0x1234 (protect_ptr 0x1234 0x555555559010) = 0x555555559010 ∧
    Ptmalloc2Allocator.reveal_ptr 0x1234
      (Ptmalloc2Allocator.protect_ptr 0x1234 0x555555559010) = 0x555555559010 :=
  c4_safe_linking_involution 0x1234 0x555555559010

/-- Claim C5 counterexample: for size 0x10 on a 64-bit layout the
fastbin index is -1, outside [0, 10), yet `Fastbin.__getitem__` raises
no `InvalidSizeClass` — it proceeds to read the bin head at the raw
index and faults on the (unmapped) memory instead. -/
theorem c5_out_of_range_size_reads_memory :
    fastbin_index 8 0x10 = -1 ∧
    fastbinGetItem fbEmptyState 0x10 10 = some (.error .memoryFault) ∧
    fastbinGetItem fbEmptyState 0x10 10 ≠ some (.error .invalidSizeClass) := by
  refine ⟨by decide, rfl, fun h => ?_⟩
  rw [show fastbinGetItem fbEmptyState 0x10 10 = some (.error .memoryFault) from rfl] at h
  simp at h

/-- Claim C5 as amended: `Fastbin.__getitem__` performs no validation of
the computed index — even when the index falls outside [0,
fastbin_count), it never fails with `InvalidSizeClass` and simply
proceeds with the walk from whatever `fastbinsY` holds at the raw
(possibly negative) index. -/
theorem c5_index_never_validated (s : FastbinState) (size fuel : Nat)
    (_h : fastbin_index s.sizeSz size < 0 ∨ 10 ≤ fastbin_index s.sizeSz size) :
    fastbinGetItem s size fuel ≠ some (.error .invalidSizeClass) ∧
    fastbinGetItem s size fuel =
      fastbinWalkLoop s (s.fastbinsY (fastbin_index s.sizeSz size)) Option.none fuel :=
  ⟨fastbinWalkLoop_ne_invalid s fuel _ _, rfl⟩

/-- Claim C5 witness: the amended statement at size 0x10 (index -1) over
the unmapped image. -/
theorem c5_index_never_validated_witness :
    fastbinGetItem fbEmptyState 0x10 10 ≠ some (.error .invalidSizeClass) ∧
    fastbinGetItem fbEmptyState 0x10 10 =
      fastbinWalkLoop fbEmptyState
        (fbEmptyState.fastbinsY (fastbin_index fbEmptyState.sizeSz 0x10)) Option.none 10 :=
  c5_index_never_validated fbEmptyState 0x10 10 (by decide)

/-- Claim C6 counterexample: `Fastbin.__init__` does not fail for an
architecture outside the supported set — for the unrecognised
architecture string it substitutes the default word size 4
(`INTERNAL_SIZE_T` defaults to 32-bit) and merely emits a log line (the
`true` component). -/
theorem c6_fastbin_defaults_word_size :
    fastbinInternalSizeT "riscv64" = (4, true) := by decide

/-- Claim C6 as amended: the two resolution sites disagree.
`Clib.__init__` does fail (with `ValueError`, the error the spec calls
`UnsupportedArchitecture`) for every `e_machine` outside its supported
set, but `Fastbin.__init__` instead substitutes the default word size 4
(logging a warning) for every architecture outside its match arms. -/
theorem c6_arch_resolution_split (b0 b1 : Nat) (arch : String)
    (h1 : ¬(b0 = 3 ∧ b1 = 0)) (h2 : ¬(b0 = 0x3e ∧ b1 = 0))
    (h3 : arch ≠ "amd64") (h4 : arch ≠ "aarch64") (h5 : arch ≠ "i386") :
    clibArchOf b0 b1 = .error .valueError ∧ fastbinInternalSizeT arch = (4, true) := by
  constructor
  · unfold clibArchOf
    rw [if_neg h1, if_neg h2, if_neg h2]
  · unfold fastbinInternalSizeT
    rw [if_neg (fun h => h.elim h3 h4), if_neg h5]

/-- Claim C6 witness: the amended statement at a concrete unsupported
machine (0x00f3, RISC-V) and architecture string. -/
theorem c6_arch_resolution_split_witness :
    clibArchOf 0xf3 0 = .error .valueError ∧
    fastbinInternalSizeT "riscv64" = (4, true) :=
  c6_arch_resolution_split 0xf3 0 "riscv64" (by decide) (by decide)
    (by decide) (by decide) (by decide)

/-- Claim C7: chunk header round-trip. Encoding `(size = 0x90,
prev_inuse = true, mmapped = false)` packs to 0x91; decoding the memory
image holding exactly those bytes (`c7mem`) recovers the identical
field values (size masked of the low 3 bits, `prev_inuse` from bit 0,
`mmapped`/allocated-arena from bit 1); and after assigning size 0xa0
through the setter, re-decoding the written bytes shows the new size
with both low flag bits unchanged. -/
theorem c7_chunk_header_round_trip :
    computeSizePlusFlags chunk0 = 0x91 ∧
    chunkInit c7mem 0x5000 = .ok chunk0 ∧
    chunkInit (chunkSetSize chunk0 c7mem 0xa0).2 0x5000 =
      .ok { chunk0 with size := 0xa0, content := List.replicate 0x90 0 } :=
  ⟨by decide, by decide, by decide⟩

/-- Claim C8: the fastbin index function is `(size >> shift) - 2` with
shift 4 for word size 8 and shift 3 for word size 4, and concretely
`index 32 = 0` and `index 48 = 1` on 64-bit and `index 16 = 0` on
32-bit. -/
theorem c8_fastbin_index_formula (size : Nat) :
    fastbin_index 8 size = ((size >>> 4 : Nat) : Int) - 2 ∧
    fastbin_index 4 size = ((size >>> 3 : Nat) : Int) - 2 ∧
    fastbin_index 8 32 = 0 ∧ fastbin_index 8 48 = 1 ∧ fastbin_index 4 16 = 0 :=
  ⟨rfl, rfl, by decide, by decide, by decide⟩

/-- Claim C8 witness: the formula at size 32. -/
theorem c8_fastbin_index_formula_witness :
    fastbin_index 8 32 = ((32 >>> 4 : Nat) : Int) - 2 ∧
    fastbin_index 4 32 = ((32 >>> 3 : Nat) : Int) - 2 ∧
    fastbin_index 8 32 = 0 ∧ fastbin_index 8 48 = 1 ∧ fastbin_index 4 16 = 0 :=
  c8_fastbin_index_formula 32

/-- Claim C9: `VersionStr.__eq__` and `__ne__` re-invoke themselves
unconditionally, so with any amount of fuel they produce no value; and
`__ge__` (resp. `__le__`) produces a value only when the strict
comparison alone decides it — which requires the numeric component
lists to differ — because its `or` falls through to the divergent
`__eq__` whenever the strict comparison is false. -/
theorem c9_version_eq_never_terminates (v1 v2 : List Nat) (fuel : Nat) :
    versionEqFuel v1 v2 fuel = none ∧
    versionNeFuel v1 v2 fuel = none ∧
    (∀ b, versionGeFuel v1 v2 fuel = some b → versionGtNums v1 v2 = true ∧ v1 ≠ v2) ∧
    (∀ b, versionLeFuel v1 v2 fuel = some b → versionLtNums v1 v2 = true ∧ v1 ≠ v2) := by
  refine ⟨versionEqFuel_eq_none v1 v2 fuel, versionNeFuel_eq_none v1 v2 fuel, ?_, ?_⟩
  · intro b h
    unfold versionGeFuel at h
    by_cases hgt : versionGtNums v1 v2 = true
    · refine ⟨hgt, fun hv => ?_⟩
      rw [hv, versionGtNums_self] at hgt
      exact Bool.false_ne_true hgt
    · rw [if_neg hgt, versionEqFuel_eq_none] at h
      exact Option.noConfusion h
  · intro b h
    unfold versionLeFuel at h
    by_cases hlt : versionLtNums v1 v2 = true
    · refine ⟨hlt, fun hv => ?_⟩
      rw [hv, versionLtNums_self] at hlt
      exact Bool.false_ne_true hlt
    · rw [if_neg hlt, versionEqFuel_eq_none] at h
      exact Option.noConfusion h

/-- Claim C9 witness: version 2.29 compared with itself never produces a
value even with fuel 1000, while the feature gate 2.31 against 2.29 is
decided by the strict comparison on differing components. -/
theorem c9_version_eq_never_terminates_witness :
    versionEqFuel [2, 29] [2, 29] 1000 = none ∧
    (versionGtNums [2, 31] [2, 29] = true ∧ [2, 31] ≠ [2, 29]) :=
  ⟨(c9_version_eq_never_terminates [2, 29] [2, 29] 1000).1,
   (c9_version_eq_never_terminates [2, 31] [2, 29] 5).2.2.1 true (by decide)⟩

/-- Claim C10: `TcacheEntry` is a frozen dataclass — every attribute
assignment on a constructed entry raises `FrozenInstanceError` — and in
particular the chain-linking assignment `curr_entry.next = entry` inside
`Tcache.__getitem__` raises it as soon as a bin walk creates a second
entry, as on `tcacheTwoState` (declared count 2, two valid linked
entries). -/
theorem c10_tcache_entry_frozen :
    (∀ (e : TcacheEntry) (fld : String) (v : PyValue),
        e.setattr fld v = .error .frozenInstanceError) ∧
    tcacheGetItem tcacheTwoState 0x20 = .error .frozenInstanceError :=
  ⟨fun _ _ _ => rfl, by decide⟩

/-- Claim C10 witness: a concrete assignment to the `next` field of a
concrete entry errors. -/
theorem c10_tcache_entry_frozen_witness :
    TcacheEntry.setattr ⟨0x1000, Option.none, Option.none⟩ "next" (.int 5) =
      .error .frozenInstanceError :=
  c10_tcache_entry_frozen.1 ⟨0x1000, Option.none, Option.none⟩ "next" (.int 5)
